import Mathlib

/-!
Verification of the client-side agent event reconciliation engine of the
ii-agent frontend (src/frontend/app/page.tsx, src/frontend/typings/agent.ts).

The engine consumes inbound WebSocket events, reconstructs a conversation
history (list of `Message`), correlates `tool_result` events with the most
recent tool call, and routes tool activity to a viewer panel (browser /
code / terminal).  The definitions below are a shallow embedding of that
code: JavaScript `undefined` is modelled with `Option`, thrown exceptions
with `Except Unit`, and side effects (toasts, socket sends, scheduled
router invocations, terminal writes) are reified as an explicit effect
list.  React state setters are modelled as functional record updates; a
state-updater callback that can throw (it runs during the next render,
outside the handler's try/catch, under React 18) is modelled as an
`Except`-valued update.
-/

namespace IIAgent

/-! ### Tool and event name constants (src/frontend/typings/agent.ts) -/

namespace TOOL

@[simp] def SEQUENTIAL_THINKING : String := "sequential_thinking"

@[simp] def STR_REPLACE_EDITOR : String := "str_replace_editor"

@[simp] def BROWSER_USE : String := "browser_use"

@[simp] def TAVILY_SEARCH : String := "tavily_web_search"

@[simp] def TAVILY_VISIT : String := "tavily_visit_webpage"

@[simp] def BASH : String := "bash"

@[simp] def FILE_WRITE : String := "file_write"

@[simp] def COMPLETE : String := "complete"

@[simp] def BROWSER_VIEW : String := "browser_view"

@[simp] def BROWSER_NAVIGATION : String := "browser_navigation"

@[simp] def BROWSER_RESTART : String := "browser_restart"

@[simp] def BROWSER_WAIT : String := "browser_wait"

@[simp] def BROWSER_SCROLL_DOWN : String := "browser_scroll_down"

@[simp] def BROWSER_SCROLL_UP : String := "browser_scroll_up"

@[simp] def BROWSER_CLICK : String := "browser_click"

@[simp] def BROWSER_ENTER_TEXT : String := "browser_enter_text"

@[simp] def BROWSER_PRESS_KEY : String := "browser_press_key"

@[simp] def BROWSER_GET_SELECT_OPTIONS : String := "browser_get_select_options"

@[simp] def BROWSER_SELECT_DROPDOWN_OPTION : String := "browser_select_dropdown_option"

@[simp] def BROWSER_SWITCH_TAB : String := "browser_switch_tab"

@[simp] def BROWSER_OPEN_NEW_TAB : String := "browser_open_new_tab"

end TOOL

namespace AgentEvent

@[simp] def CONNECTION_ESTABLISHED : String := "connection_established"

@[simp] def WORKSPACE_INFO : String := "workspace_info"

@[simp] def PROCESSING : String := "processing"

@[simp] def AGENT_THINKING : String := "agent_thinking"

@[simp] def TOOL_CALL : String := "tool_call"

@[simp] def TOOL_RESULT : String := "tool_result"

@[simp] def AGENT_RESPONSE : String := "agent_response"

@[simp] def UPLOAD_SUCCESS : String := "upload_success"

@[simp] def BROWSER_USE : String := "browser_use"

end AgentEvent

/-- The list of browser sub-kind tool names filtered out at the top of the
`TOOL_RESULT` case of `ws.onmessage` (page.tsx lines 373-387).  The
`handleClickAction` switch groups the same thirteen kinds (in a different
order) into its "switch tab only" branch. -/
def browserSubKinds : List String :=
  [TOOL.BROWSER_VIEW, TOOL.BROWSER_CLICK, TOOL.BROWSER_ENTER_TEXT,
   TOOL.BROWSER_PRESS_KEY, TOOL.BROWSER_GET_SELECT_OPTIONS,
   TOOL.BROWSER_SELECT_DROPDOWN_OPTION, TOOL.BROWSER_SWITCH_TAB,
   TOOL.BROWSER_OPEN_NEW_TAB, TOOL.BROWSER_WAIT, TOOL.BROWSER_SCROLL_DOWN,
   TOOL.BROWSER_SCROLL_UP, TOOL.BROWSER_NAVIGATION, TOOL.BROWSER_RESTART]

/-! ### Data model -/

/-- `tool_input` payload of a tool call (typings/agent.ts `ActionStep.data.tool_input`).
All fields are optional in the source. -/
structure ToolInput where
  thought : Option String := none
  path : Option String := none
  file : Option String := none
  command : Option String := none
  url : Option String := none
  query : Option String := none
deriving Repr, DecidableEq

/-- `ActionStep.data` (typings/agent.ts). `result` payloads in the claims at
issue are strings. -/
structure ActionData where
  isResult : Option Bool := none
  tool_name : Option String := none
  tool_input : Option ToolInput := none
  result : Option String := none
deriving Repr, DecidableEq

/-- `ActionStep` (typings/agent.ts).  `type` is declared as `TOOL` in the
source but at runtime it is just the string taken from the event, and the
fallback branch of the `TOOL_RESULT` case stores an object with no `type`
field at all, so it is modelled as `Option String`. -/
structure ActionStep where
  type : Option String := none
  data : ActionData := {}
deriving Repr, DecidableEq

/-- `Message` (page.tsx lines 31-39). -/
structure Message where
  id : String
  role : String
  content : Option String := none
  timestamp : Nat
  action : Option ActionStep := none
  files : Option (List String) := none
  fileContents : Option (List (String × String)) := none
deriving Repr, DecidableEq

/-- The viewer tabs (page.tsx `enum TAB`). -/
inductive TAB where
  | BROWSER
  | CODE
  | TERMINAL
deriving Repr, DecidableEq

/-- The component state of `Home` (the `useState` hooks of page.tsx).
`socketOpen` models the `socket` state variable: `none` is a null socket,
`some b` is a socket whose `readyState == WebSocket.OPEN` test yields `b`. -/
structure HomeState where
  messages : List Message := []
  isLoading : Bool := false
  isInChatView : Bool := false
  socketOpen : Option Bool := none
  activeTab : TAB := TAB.BROWSER
  currentActionData : Option ActionStep := none
  activeFileCodeEditor : String := ""
  currentQuestion : String := ""
  isCompleted : Bool := false
  workspaceInfo : String := ""
  isUploading : Bool := false
  uploadedFiles : List String := []
deriving Repr, DecidableEq

/-- The initial state produced by the `useState` initializers. -/
def initialHomeState : HomeState := {}

/-- Inbound event `content` object.  Only the fields the handler reads are
modelled; each is optional because events are raw JSON. -/
structure EventContent where
  text : Option String := none
  path : Option String := none
  tool_name : Option String := none
  tool_input : Option ToolInput := none
  result : Option String := none
  screenshot : Option String := none
  url : Option String := none
  files : Option (List String) := none
  message : Option String := none
deriving Repr, DecidableEq

/-- An inbound event envelope `{ type, content }`. -/
structure AgentEventMsg where
  type : String
  content : EventContent := {}
deriving Repr, DecidableEq

/-- Reified side effects of the handlers: console logs, toast errors,
outbound query sends, and (debounced) invocations of `handleClickAction`
scheduled after `delayMs` milliseconds. -/
inductive Effect where
  | consoleLog (msg : String)
  | toastError (msg : Option String)
  | sendQuery (text : String) (resume : Bool)
  | routeCall (a : ActionStep) (showTabOnly : Bool) (delayMs : Nat)
deriving Repr, DecidableEq

/-! ### Action router (`handleClickAction`, page.tsx lines 58-131) -/

/-- JavaScript truthiness of an optional string: `undefined` and `""` are
falsy. -/
def jsTruthy : Option String → Bool
  | some st => !(st == "")
  | none => false

/-- JavaScript `a || b` on optional strings. -/
def jsOrS (x y : Option String) : Option String :=
  if jsTruthy x then x else y

/-- Path resolution of the FILE_WRITE / STR_REPLACE_EDITOR branch:
`path.startsWith(workspaceInfo) ? path : workspaceInfo + "/" + path`. -/
def resolvePath (ws p : String) : String :=
  if p.startsWith ws then p else ws ++ "/" ++ p

/-- The terminal chunks written by the BASH branch when `showTabOnly` is
false: the command line is echoed unless the step already carries a result
(`!data.data?.isResult`), then each line of a truthy result is written
followed by a `"$ "` prompt chunk. -/
def bashLines (a : ActionStep) : List String :=
  (if a.data.isResult == some true then []
   else [(jsOrS (a.data.tool_input.bind ToolInput.command) (some "")).getD ""]) ++
  (if jsTruthy a.data.result then
     ((a.data.result.getD "").splitOn "\n") ++ ["$ "]
   else [])

/-- The body of `handleClickAction` (before debouncing): updates the panel
selection and returns the terminal chunks written.  `setActiveFileCodeEditor("")`
runs first in every branch.  The thirteen browser sub-kinds switch the tab
only; unrecognized kinds are a no-op. -/
def routeFn (s : HomeState) (a : ActionStep) (showTabOnly : Bool) :
    HomeState × List String :=
  let s0 : HomeState := { s with activeFileCodeEditor := "" }
  match a.type with
  | none => (s0, [])
  | some t =>
    if t == TOOL.TAVILY_SEARCH || t == TOOL.BROWSER_USE || t == TOOL.TAVILY_VISIT then
      ({ s0 with activeTab := TAB.BROWSER, currentActionData := some a }, [])
    else if browserSubKinds.contains t then
      ({ s0 with activeTab := TAB.BROWSER }, [])
    else if t == TOOL.BASH then
      ({ s0 with activeTab := TAB.TERMINAL },
       if showTabOnly then [] else bashLines a)
    else if t == TOOL.FILE_WRITE || t == TOOL.STR_REPLACE_EDITOR then
      let s1 : HomeState := { s0 with activeTab := TAB.CODE, currentActionData := some a }
      let p := jsOrS (a.data.tool_input.bind ToolInput.path)
                     (a.data.tool_input.bind ToolInput.file)
      if jsTruthy p then
        ({ s1 with activeFileCodeEditor := resolvePath s.workspaceInfo (p.getD "") }, [])
      else (s1, [])
    else (s0, [])

/-- `lodash.debounce(fn, wait)` with the default trailing edge: each call
stores its arguments and re-arms the timer; the stored call fires only if
the next call arrives at or after `t + wait` (the last call always fires).
Returns the argument lists that actually execute, in order. -/
def debounceRuns (wait : Nat) : List (Nat × ActionStep × Bool) → List (ActionStep × Bool)
  | [] => []
  | (t, a) :: rest =>
    match rest with
    | [] => [a]
    | (t2, _) :: _ =>
      if t + wait ≤ t2 then a :: debounceRuns wait rest
      else debounceRuns wait rest

/-- Run a list of executed router calls in order, accumulating terminal
chunks. -/
def runRoutes (s : HomeState) : List (ActionStep × Bool) → HomeState × List String
  | [] => (s, [])
  | c :: rest =>
    let r := routeFn s c.1 c.2
    let rr := runRoutes r.1 rest
    (rr.1, r.2 ++ rr.2)

/-- The observable outcome of a timed sequence of calls to the debounced
`handleClickAction` (wait = 50ms, page.tsx line 130). -/
def debouncedRoute (s : HomeState) (timed : List (Nat × ActionStep × Bool)) :
    HomeState × List String :=
  runRoutes s (debounceRuns 50 timed)

/-! ### Tool-result reconciliation (`TOOL_RESULT` case, page.tsx lines 401-424) -/

/-- The `data` object built when a tool call or result content is stored as
an `ActionStep`'s data (`data: data.content`). -/
def actionDataOfContent (c : EventContent) : ActionData :=
  { isResult := none, tool_name := c.tool_name,
    tool_input := c.tool_input, result := c.result }

/-- The merged action after `lastMessage.action.data.result = content.result;
lastMessage.action.data.isResult = true`. -/
def mergedActionOf (c : EventContent) (a : ActionStep) : ActionStep :=
  { a with data := { a.data with result := c.result, isResult := some true } }

/-- The merged last message: its `id` is refreshed and its action data
mutated in place. -/
def mergeResult (now : Nat) (c : EventContent) (m : Message) (a : ActionStep) :
    Message :=
  { m with id := toString now, action := some (mergedActionOf c a) }

/-- The fallback entry `{ ...lastMessage, action: data.content }`: it spreads
every field of the last message and replaces `action` by the raw content
object — an object with no `type` field (hence `type := none`). -/
def fallbackEntry (c : EventContent) (m : Message) : Message :=
  { m with action := some { type := none, data := actionDataOfContent c } }

/-- The `setMessages` updater of the non-browser, non-sequential-thinking
`TOOL_RESULT` path.  `prev[prev.length - 1]` on an empty list is
`undefined`, so the subsequent `lastMessage.action` access throws a
TypeError (`Except.error`).  If the last message carries an action whose
`type` strictly equals the event's `tool_name` (`===`, so two `undefined`s
also match), the result is merged in place and a router invocation on the
merged action is scheduled after 500ms with `showTabOnly` left at its
default `false`; otherwise a fallback entry is appended. -/
def toolResultUpdate (now : Nat) (c : EventContent) (prev : List Message) :
    Except Unit (List Message × List Effect) :=
  match prev.getLast? with
  | none => .error ()
  | some m =>
    match m.action with
    | some a =>
      if a.type == c.tool_name then
        .ok (prev.dropLast ++ [mergeResult now c m a],
             [Effect.routeCall (mergedActionOf c a) false 500])
      else .ok (prev ++ [fallbackEntry c m], [])
    | none => .ok (prev ++ [fallbackEntry c m], [])

/-! ### Event dispatcher (`ws.onmessage`, page.tsx lines 303-462) -/

/-- An assistant text entry (`{ id, role: "assistant", content, timestamp }`). -/
def mkAssistantText (now : Nat) (text : Option String) : Message :=
  { id := toString now, role := "assistant", content := text, timestamp := now }

/-- Whether `content.tool_name` is one of the thirteen browser sub-kinds
(`[...].includes(data.content.tool_name)`; `includes(undefined)` is false). -/
def isBrowserSubKind (c : EventContent) : Bool :=
  match c.tool_name with
  | some n => browserSubKinds.contains n
  | none => false

/-- The switch of `ws.onmessage` on a successfully parsed event.  An
`Except.error` models a JavaScript exception raised inside a `setMessages`
updater: under React 18 the updater runs during the following render,
outside the handler's try/catch, so such an exception escapes and crashes
the render.  Synchronous exceptions (e.g. `content.files.map` on a missing
`files` in `UPLOAD_SUCCESS`) are caught by the handler's try/catch and are
modelled directly: queued setter calls made before the throw still apply. -/
def handleAgentEvent (now : Nat) (ev : AgentEventMsg) (s : HomeState) :
    Except Unit (HomeState × List Effect) :=
  let c := ev.content
  if ev.type == AgentEvent.PROCESSING then
    .ok ({ s with isLoading := true }, [])
  else if ev.type == AgentEvent.WORKSPACE_INFO then
    .ok ({ s with workspaceInfo := c.path.getD "" }, [])
  else if ev.type == AgentEvent.AGENT_THINKING then
    .ok ({ s with messages := s.messages ++ [mkAssistantText now c.text] }, [])
  else if ev.type == AgentEvent.TOOL_CALL then
    if c.tool_name == some TOOL.SEQUENTIAL_THINKING then
      match c.tool_input with
      | none => .error ()
      | some ti =>
        .ok ({ s with messages := s.messages ++ [mkAssistantText now ti.thought] }, [])
    else
      let a : ActionStep := { type := c.tool_name, data := actionDataOfContent c }
      .ok ({ s with messages := s.messages ++
              [{ id := toString now, role := "assistant", timestamp := now,
                 action := some a }] },
           [Effect.routeCall a false 0])
  else if ev.type == AgentEvent.BROWSER_USE then
    let a : ActionStep :=
      { type := some TOOL.BROWSER_USE,
        data := { isResult := none, tool_name := none,
                  tool_input := some { url := c.url }, result := c.screenshot } }
    .ok ({ s with messages := s.messages ++
            [{ id := toString now, role := "assistant", timestamp := now,
               action := some a }] },
         [Effect.routeCall a false 0])
  else if ev.type == AgentEvent.TOOL_RESULT then
    if isBrowserSubKind c then
      .ok (s, [])
    else if c.tool_name == some TOOL.BROWSER_USE then
      .ok ({ s with messages := s.messages ++ [mkAssistantText now c.result] }, [])
    else if c.tool_name == some TOOL.SEQUENTIAL_THINKING then
      .ok (s, [])
    else
      match toolResultUpdate now c s.messages with
      | .error e => .error e
      | .ok (msgs, effs) => .ok ({ s with messages := msgs }, effs)
  else if ev.type == AgentEvent.AGENT_RESPONSE then
    .ok ({ s with messages := s.messages ++ [mkAssistantText now c.text],
                  isCompleted := true, isLoading := false }, [])
  else if ev.type == AgentEvent.UPLOAD_SUCCESS then
    match c.files with
    | none =>
      .ok ({ s with isUploading := false },
           [Effect.consoleLog "Error parsing WebSocket data:"])
    | some fs =>
      .ok ({ s with isUploading := false,
                    uploadedFiles := s.uploadedFiles ++ fs }, [])
  else if ev.type == "error" then
    .ok ({ s with isUploading := false, isLoading := false },
         [Effect.toastError c.message])
  else
    .ok (s, [])

/-- The whole `ws.onmessage` handler: `none` models a raw message on which
`JSON.parse` throws, which is caught, logged and discarded. -/
def wsOnMessage (now : Nat) (raw : Option AgentEventMsg) (s : HomeState) :
    Except Unit (HomeState × List Effect) :=
  match raw with
  | none => .ok (s, [Effect.consoleLog "Error parsing WebSocket data:"])
  | some ev => handleAgentEvent now ev s

/-! ### Query submission (`handleQuestionSubmit`, page.tsx lines 133-183) -/

/-- JavaScript `String.prototype.trim()`: strips whitespace from both ends.
(Defined on the character list so that it reduces definitionally, unlike
`String.trim`.) -/
def jsTrim (s : String) : String :=
  ⟨((s.data.dropWhile Char.isWhitespace).reverse.dropWhile Char.isWhitespace).reverse⟩

/-- A user message as built by `handleQuestionSubmit`. -/
def userMsg (now : Nat) (content : String) : Message :=
  { id := toString now, role := "user", content := some content, timestamp := now }

/-- Whether the socket exists and its `readyState` is OPEN
(`!socket || socket.readyState !== WebSocket.OPEN` fails). -/
def socketIsOpen (s : HomeState) : Bool :=
  match s.socketOpen with
  | some b => b
  | none => false

/-- The note appended to the outbound text when files were uploaded. -/
def noteText (files : List String) : String :=
  "\n\nNote: I\x27ve already uploaded the following files that you can use:\n" ++
  String.intercalate "\n" (files.map (fun f => "- " ++ f))

/-- The outbound text composition of page.tsx lines 156-171: the guarded
note-appending statement appears twice in the source, but both assignments
rebuild from `newQuestion`, so the second overwrites the first with the
same value. -/
def finalQuestion (q : String) (files : List String) : String :=
  let f1 := q
  let f2 := if 0 < files.length then q ++ noteText files else f1
  let f3 := if 0 < files.length then q ++ noteText files else f2
  f3

/-- `handleQuestionSubmit`: a blank (after trim) question or an in-flight
query returns immediately with no state change.  Otherwise the flags are
set, the user message is appended, and only then is the socket checked:
on a closed socket the loading flag is cleared, an error is toasted, and
nothing is sent — the appended message stays.  On an open socket the query
is sent; `resume` reads the pre-append `messages` closure value. -/
def handleQuestionSubmit (now : Nat) (s : HomeState) (newQuestion : String) :
    HomeState × List Effect :=
  if jsTrim newQuestion == "" || s.isLoading then (s, [])
  else
    let s1 : HomeState :=
      { s with isLoading := true, isInChatView := true, currentQuestion := "",
               isCompleted := false,
               messages := s.messages ++ [userMsg now newQuestion] }
    if !(socketIsOpen s) then
      ({ s1 with isLoading := false },
       [Effect.toastError (some "WebSocket connection is not open. Please try again.")])
    else
      (s1, [Effect.sendQuery (finalQuestion newQuestion s.uploadedFiles)
              (decide (0 < s.messages.length))])

/-! ### Session reset (`resetChat`, page.tsx lines 192-200) -/

/-- `resetChat` closes the socket and clears exactly four pieces of state:
the chat-view flag, the message list, the loading flag and the completed
flag.  No other state variable is touched. -/
def resetChat (s : HomeState) : HomeState :=
  { s with isInChatView := false, messages := [], isLoading := false,
           isCompleted := false }

/-! ### Event counting (for the entry-count invariant) -/

/-- Whether an event's type alone makes it append-or-merge material for the
message list: assistant text events, tool calls, browser screenshot pushes,
and tool results that are neither a browser sub-kind nor sequential
thinking. -/
def isAppendTriggering (ev : AgentEventMsg) : Bool :=
  ev.type == AgentEvent.AGENT_THINKING ||
  ev.type == AgentEvent.AGENT_RESPONSE ||
  ev.type == AgentEvent.BROWSER_USE ||
  ev.type == AgentEvent.TOOL_CALL ||
  (ev.type == AgentEvent.TOOL_RESULT &&
    !(isBrowserSubKind ev.content) &&
    !(ev.content.tool_name == some TOOL.SEQUENTIAL_THINKING))

/-- The in-place-merge test of the `TOOL_RESULT` updater: the last entry
carries an action whose `type` strictly equals the event's `tool_name`. -/
def codeMergeCond (c : EventContent) (prev : List Message) : Bool :=
  match prev.getLast? with
  | none => false
  | some m =>
    match m.action with
    | none => false
    | some a => a.type == c.tool_name

/-- Whether an event, arriving in state `s`, is a `tool_result` that merges
into the last entry rather than appending. -/
def isMatchedMerge (ev : AgentEventMsg) (s : HomeState) : Bool :=
  ev.type == AgentEvent.TOOL_RESULT &&
  !(isBrowserSubKind ev.content) &&
  !(ev.content.tool_name == some TOOL.BROWSER_USE) &&
  !(ev.content.tool_name == some TOOL.SEQUENTIAL_THINKING) &&
  codeMergeCond ev.content s.messages

/-- Process a list of inbound events in order (effects dropped), stopping
with an error if any updater throws. -/
def processEvents (now : Nat) (s : HomeState) : List AgentEventMsg → Except Unit HomeState
  | [] => .ok s
  | ev :: rest =>
    match handleAgentEvent now ev s with
    | .error e => .error e
    | .ok (s2, _) => processEvents now s2 rest

/-- The number of append-triggering events in a list. -/
def countAppendTriggering : List AgentEventMsg → Nat
  | [] => 0
  | ev :: rest =>
    (if isAppendTriggering ev then 1 else 0) + countAppendTriggering rest

/-- The number of tool-result events along the run that found a merge
match. -/
def matchedMergeCount (now : Nat) (s : HomeState) : List AgentEventMsg → Nat
  | [] => 0
  | ev :: rest =>
    (if isMatchedMerge ev s then 1 else 0) +
    (match handleAgentEvent now ev s with
     | .error _ => 0
     | .ok (s2, _) => matchedMergeCount now s2 rest)

/-! ### Claim C2 — malformed events and the empty-store tool_result -/

/-- A well-formed `tool_result` event for the shell tool. -/
def c2CrashEvent : AgentEventMsg :=
  { type := "tool_result",
    content := { tool_name := some TOOL.BASH, result := some "done" } }

/-- C2: a message that fails to parse is indeed logged and discarded without
state mutation, but the claim that no well-formed event sequence can crash
the session is violated by the code: a `tool_result` of a mergeable kind
arriving while the message list is empty makes the `setMessages` updater
dereference `prev[prev.length - 1]` (which is `undefined`) and throw a
TypeError that escapes the handler. -/
theorem C2_tool_result_crash :
    wsOnMessage 3 none initialHomeState
      = Except.ok (initialHomeState, [Effect.consoleLog "Error parsing WebSocket data:"]) ∧
    wsOnMessage 3 (some c2CrashEvent) initialHomeState = Except.error () := by
  exact ⟨rfl, rfl⟩

/-! ### Claim C3 — resetChat -/

/-- A session state with non-trivial panel and upload state. -/
def c3State : HomeState :=
  { initialHomeState with
      messages := [userMsg 1 "hi"],
      activeTab := TAB.CODE,
      currentActionData := some { type := some TOOL.BASH },
      activeFileCodeEditor := "/ws/f.py",
      uploadedFiles := ["a.png"],
      isUploading := true }

/-- C3 counterexample: after `resetChat`, the message list is empty but the
PanelSelection (active tab, current action data, active document) and the
UploadRegistry (uploaded files, uploading flag) all differ from the initial
empty state — `resetChat` never touches them. -/
theorem C3_cex :
    (resetChat c3State).messages = [] ∧
    (resetChat c3State).uploadedFiles ≠ initialHomeState.uploadedFiles ∧
    (resetChat c3State).activeTab ≠ initialHomeState.activeTab ∧
    (resetChat c3State).currentActionData ≠ initialHomeState.currentActionData ∧
    (resetChat c3State).activeFileCodeEditor ≠ initialHomeState.activeFileCodeEditor ∧
    (resetChat c3State).isUploading ≠ initialHomeState.isUploading := by
  refine ⟨rfl, ?_, ?_, ?_, ?_, ?_⟩ <;> decide

/-- C3 (amended): `resetChat` clears exactly the message list, the chat-view
flag, the loading flag and the completed flag; the panel selection, active
document, upload registry and workspace info all keep their prior values. -/
theorem C3_reset_partial (s : HomeState) :
    (resetChat s).messages = [] ∧ (resetChat s).isInChatView = false ∧
    (resetChat s).isLoading = false ∧ (resetChat s).isCompleted = false ∧
    (resetChat s).activeTab = s.activeTab ∧
    (resetChat s).currentActionData = s.currentActionData ∧
    (resetChat s).activeFileCodeEditor = s.activeFileCodeEditor ∧
    (resetChat s).currentQuestion = s.currentQuestion ∧
    (resetChat s).uploadedFiles = s.uploadedFiles ∧
    (resetChat s).isUploading = s.isUploading ∧
    (resetChat s).workspaceInfo = s.workspaceInfo :=
  ⟨rfl, rfl, rfl, rfl, rfl, rfl, rfl, rfl, rfl, rfl, rfl⟩

/-! ### Claim C1 — the merge rule of tool_result -/

/-- The merge condition the claim states: the last entry carries an
ActionStep of the result's kind with `resultReceived = false`. -/
def claimC1MergeCond (c : EventContent) (prev : List Message) : Bool :=
  match prev.getLast? with
  | none => false
  | some m =>
    match m.action with
    | none => false
    | some a => a.type == c.tool_name && !(a.data.isResult == some true)

/-- A shell step that has already received its result. -/
def c1DoneAction : ActionStep :=
  { type := some TOOL.BASH,
    data := { isResult := some true, tool_name := some TOOL.BASH,
              tool_input := some { command := some "ls" }, result := some "r1" } }

/-- The message carrying `c1DoneAction` as the only (hence last) entry. -/
def c1DoneMsg : Message :=
  { id := "1", role := "assistant", timestamp := 1, action := some c1DoneAction }

/-- A second shell result arriving after the first was already merged. -/
def c1Content : EventContent := { tool_name := some TOOL.BASH, result := some "r2" }

/-- C1 counterexample: the claim says a result merges iff the last entry
carries a matching ActionStep with `resultReceived = false`.  The code never
consults `resultReceived`: with a last entry whose shell step already has
`isResult = true`, a second shell result still merges in place (the entry
count stays 1) instead of being appended as a new entry. -/
theorem C1_cex :
    ¬ (∀ now c prev out effs,
        toolResultUpdate now c prev = Except.ok (out, effs) →
        (out.length = prev.length ↔ claimC1MergeCond c prev = true)) := by
  intro hcl
  have h := hcl 7 c1Content [c1DoneMsg]
      [mergeResult 7 c1Content c1DoneMsg c1DoneAction]
      [Effect.routeCall (mergedActionOf c1Content c1DoneAction) false 500]
      rfl
  have h2 : claimC1MergeCond c1Content [c1DoneMsg] = true := h.mp rfl
  exact absurd h2 (by decide)

/-- C1 (amended): a `tool_result` of a mergeable kind merges into the most
recently appended entry iff that entry carries an ActionStep whose kind
strictly equals the result's tool kind — `resultReceived` is not consulted,
so a result can merge into an already-completed step.  Otherwise a new entry
is appended; it spreads the last entry's other fields and stores the raw
result content as its action.  (With an empty store the updater throws
instead; see C2.) -/
theorem C1_merge_rule (now : Nat) (c : EventContent) (prev out : List Message)
    (effs : List Effect)
    (h : toolResultUpdate now c prev = Except.ok (out, effs)) :
    (codeMergeCond c prev = true →
      ∃ m a, prev.getLast? = some m ∧ m.action = some a ∧
        out = prev.dropLast ++ [mergeResult now c m a]) ∧
    (codeMergeCond c prev = false →
      ∃ m, prev.getLast? = some m ∧ out = prev ++ [fallbackEntry c m]) := by
  unfold toolResultUpdate at h
  unfold codeMergeCond
  cases hl : prev.getLast? with
  | none => rw [hl] at h; exact absurd h (by simp)
  | some m =>
    rw [hl] at h
    dsimp only at h ⊢
    cases ha : m.action with
    | none =>
      rw [ha] at h
      dsimp only at h
      simp only [Except.ok.injEq, Prod.mk.injEq] at h
      refine ⟨fun hc => absurd hc (by simp), fun _ => ⟨m, rfl, h.1.symm⟩⟩
    | some a =>
      rw [ha] at h
      dsimp only at h
      by_cases hty : (a.type == c.tool_name) = true
      · rw [if_pos hty] at h
        simp only [Except.ok.injEq, Prod.mk.injEq] at h
        refine ⟨fun _ => ⟨m, a, rfl, ha, h.1.symm⟩, fun hc => ?_⟩
        dsimp only at hc
        rw [hty] at hc
        simp at hc
      · rw [if_neg hty] at h
        simp only [Except.ok.injEq, Prod.mk.injEq] at h
        refine ⟨fun hc => absurd hc hty, fun _ => ⟨m, rfl, h.1.symm⟩⟩

/-- A last entry with no action at all. -/
def c1PlainMsg : Message :=
  { id := "3", role := "assistant", content := some "hello", timestamp := 3 }

/-- Witness for C1: with a plain last entry the merge condition is false and
the update appends the fallback entry. -/
theorem C1_witness :
    ∃ m, ([c1PlainMsg] : List Message).getLast? = some m ∧
      [c1PlainMsg] ++ [fallbackEntry c1Content c1PlainMsg]
        = [c1PlainMsg] ++ [fallbackEntry c1Content m] :=
  (C1_merge_rule 8 c1Content [c1PlainMsg]
      ([c1PlainMsg] ++ [fallbackEntry c1Content c1PlainMsg]) [] rfl).2 rfl

/-! ### Claim C4 — routing after a merge -/

/-- A pending shell step (no result yet). -/
def c4PendingAction : ActionStep :=
  { type := some TOOL.BASH,
    data := { tool_name := some TOOL.BASH, tool_input := some { command := some "ls" } } }

/-- The message carrying `c4PendingAction` as the last entry. -/
def c4PendingMsg : Message :=
  { id := "2", role := "assistant", timestamp := 2, action := some c4PendingAction }

/-- The matching shell result. -/
def c4Content : EventContent := { tool_name := some TOOL.BASH, result := some "ok" }

/-- C4 counterexample: the claim says every merge schedules the Action
Router with `showOnly = true`.  The code calls `handleClickAction(lastMessage.action)`
with one argument, so `showTabOnly` takes its default `false`: at this
concrete merge the scheduled invocation carries `showOnly = false`. -/
theorem C4_cex :
    ¬ (∀ now c prev out effs,
        toolResultUpdate now c prev = Except.ok (out, effs) →
        codeMergeCond c prev = true →
        ∀ a so d, Effect.routeCall a so d ∈ effs → so = true) := by
  intro hcl
  have h := hcl 9 c4Content [c4PendingMsg]
      [mergeResult 9 c4Content c4PendingMsg c4PendingAction]
      [Effect.routeCall (mergedActionOf c4Content c4PendingAction) false 500]
      rfl rfl (mergedActionOf c4Content c4PendingAction) false 500
      (List.mem_singleton.mpr rfl)
  exact Bool.false_ne_true h

/-- C4 (amended): whenever a `tool_result` is merged into the most recent
entry's ActionStep, the Action Router is scheduled on the merged action
after a fixed 500ms delay, but with `showOnly` left at its default `false`
rather than `true`. -/
theorem C4_merge_routes_default (now : Nat) (c : EventContent) (prev out : List Message)
    (effs : List Effect)
    (h : toolResultUpdate now c prev = Except.ok (out, effs))
    (hm : codeMergeCond c prev = true) :
    ∃ a, effs = [Effect.routeCall (mergedActionOf c a) false 500] ∧
      (mergedActionOf c a).data.isResult = some true := by
  unfold toolResultUpdate at h
  unfold codeMergeCond at hm
  cases hl : prev.getLast? with
  | none => rw [hl] at hm; exact absurd hm (by simp)
  | some m =>
    rw [hl] at h hm
    dsimp only at h hm
    cases ha : m.action with
    | none => rw [ha] at hm; exact absurd hm (by simp)
    | some a =>
      rw [ha] at h hm
      dsimp only at h hm
      rw [if_pos hm] at h
      simp only [Except.ok.injEq, Prod.mk.injEq] at h
      exact ⟨a, h.2.symm, rfl⟩

/-- Witness for C4: the concrete merge of `c4Content` into `c4PendingMsg`
schedules exactly one router call, with `showTabOnly = false` and a 500ms
delay, on the completed action. -/
theorem C4_witness :
    ∃ a, [Effect.routeCall (mergedActionOf c4Content c4PendingAction) false 500]
           = [Effect.routeCall (mergedActionOf c4Content a) false 500] ∧
         (mergedActionOf c4Content a).data.isResult = some true :=
  C4_merge_routes_default 9 c4Content [c4PendingMsg]
    [mergeResult 9 c4Content c4PendingMsg c4PendingAction]
    [Effect.routeCall (mergedActionOf c4Content c4PendingAction) false 500]
    rfl rfl

/-! ### Claim C7 — the resume flag -/

/-- C7: every outbound query message carries `resume = true` iff the message
history was non-empty when the submit began, i.e. iff this is not the first
turn of the session. -/
theorem C7_resume_iff (now : Nat) (s : HomeState) (q t : String) (r : Bool)
    (st : HomeState) (effs : List Effect)
    (h : handleQuestionSubmit now s q = (st, effs))
    (hm : Effect.sendQuery t r ∈ effs) :
    (r = true ↔ s.messages ≠ []) := by
  unfold handleQuestionSubmit at h
  split at h
  · injection h with h1 h2
    subst h2
    simp at hm
  · split at h
    · injection h with h1 h2
      subst h2
      simp at hm
    · injection h with h1 h2
      subst h2
      simp only [List.mem_singleton, Effect.sendQuery.injEq] at hm
      rw [hm.2]
      simp [List.length_pos]

/-- A session state with one prior turn and an open socket. -/
def c7State : HomeState :=
  { initialHomeState with socketOpen := some true, messages := [userMsg 1 "a"] }

/-- The state after submitting "hi" from `c7State`. -/
def c7After : HomeState :=
  { c7State with isLoading := true, isInChatView := true, currentQuestion := "",
                 isCompleted := false,
                 messages := c7State.messages ++ [userMsg 5 "hi"] }

/-- Witness for C7: submitting from a state with one prior message sends
`resume = true`. -/
theorem C7_witness : (true = true ↔ c7State.messages ≠ ([] : List Message)) :=
  C7_resume_iff 5 c7State "hi" (finalQuestion "hi" []) true c7After
    [Effect.sendQuery (finalQuestion "hi" []) true] rfl
    (List.mem_singleton.mpr rfl)

/-! ### Claim C8 — the uploaded-files note -/

/-- The double note-appending statement collapses to a single occurrence of
the note, because both assignments rebuild from the raw question. -/
theorem finalQuestion_eq (q : String) (files : List String) :
    finalQuestion q files = if files = [] then q else q ++ noteText files := by
  unfold finalQuestion
  cases files <;> simp

/-- C8: the outbound query text is exactly the user's text when no uploads
completed, and the user's text followed by a single deterministic note
listing the uploaded filenames otherwise. -/
theorem C8_upload_note (now : Nat) (s : HomeState) (q t : String) (r : Bool)
    (st : HomeState) (effs : List Effect)
    (h : handleQuestionSubmit now s q = (st, effs))
    (hm : Effect.sendQuery t r ∈ effs) :
    t = (if s.uploadedFiles = [] then q else q ++ noteText s.uploadedFiles) := by
  unfold handleQuestionSubmit at h
  split at h
  · injection h with h1 h2
    subst h2
    simp at hm
  · split at h
    · injection h with h1 h2
      subst h2
      simp at hm
    · injection h with h1 h2
      subst h2
      simp only [List.mem_singleton, Effect.sendQuery.injEq] at hm
      rw [hm.1, finalQuestion_eq]

/-- A fresh session with one completed upload and an open socket. -/
def c8State : HomeState :=
  { initialHomeState with socketOpen := some true, uploadedFiles := ["a.png"] }

/-- The state after submitting "hi" from `c8State`. -/
def c8After : HomeState :=
  { c8State with isLoading := true, isInChatView := true, currentQuestion := "",
                 isCompleted := false, messages := [userMsg 6 "hi"] }

/-- Witness for C8: after `upload_success` for "a.png", the next query's
outbound text is the question followed by the note referencing "a.png". -/
theorem C8_witness :
    finalQuestion "hi" ["a.png"]
      = (if c8State.uploadedFiles = [] then "hi"
         else "hi" ++ noteText c8State.uploadedFiles) :=
  C8_upload_note 6 c8State "hi" (finalQuestion "hi" ["a.png"]) false c8After
    [Effect.sendQuery (finalQuestion "hi" ["a.png"]) false] rfl
    (List.mem_singleton.mpr rfl)

/-! ### Claim C9 — browser-kind tool results -/

/-- C9: a `tool_result` whose tool name is one of the thirteen browser
sub-kinds is silently discarded (state unchanged, no effects, no routing),
while a `tool_result` for `browser_use` always appends a plain-content
assistant entry and never merges or routes. -/
theorem C9_browser_tool_results (now : Nat) (s : HomeState) (c : EventContent) :
    (∀ n, c.tool_name = some n → browserSubKinds.contains n = true →
        handleAgentEvent now { type := AgentEvent.TOOL_RESULT, content := c } s
          = Except.ok (s, [])) ∧
    (c.tool_name = some TOOL.BROWSER_USE →
        handleAgentEvent now { type := AgentEvent.TOOL_RESULT, content := c } s
          = Except.ok ({ s with messages := s.messages ++ [mkAssistantText now c.result] }, [])) := by
  constructor
  · intro n hn hb
    have hmem : n ∈ browserSubKinds := by simpa using hb
    simp [handleAgentEvent, isBrowserSubKind, hn, hb, hmem]
  · intro hb
    simp [handleAgentEvent, isBrowserSubKind, hb, browserSubKinds]

/-- A `browser_click` tool result event. -/
def c9ClickEvent : AgentEventMsg :=
  { type := "tool_result", content := { tool_name := some "browser_click" } }

/-- A `browser_use` tool result event. -/
def c9UseEvent : AgentEventMsg :=
  { type := "tool_result", content := { tool_name := some "browser_use", result := some "ok" } }

/-- Witness for C9: a `browser_click` result is discarded outright, and a
`browser_use` result appends a plain assistant entry. -/
theorem C9_witness :
    handleAgentEvent 4 c9ClickEvent initialHomeState = Except.ok (initialHomeState, []) ∧
    handleAgentEvent 4 c9UseEvent initialHomeState
      = Except.ok ({ initialHomeState with messages := [mkAssistantText 4 (some "ok")] }, []) := by
  constructor
  · exact (C9_browser_tool_results 4 initialHomeState c9ClickEvent.content).1
      "browser_click" rfl (by decide)
  · have h := (C9_browser_tool_results 4 initialHomeState c9UseEvent.content).2 rfl
    simpa using h

/-! ### Claim C10 — submit on a closed socket -/

/-- C10: a blank question or an in-flight query leaves the state untouched
and produces no effect; a non-blank question submitted while the socket is
absent or not open still appends the user message to the history, then
clears the loading flag, toasts an error, and sends nothing. -/
theorem C10_submit (now : Nat) (s : HomeState) (q : String) :
    (jsTrim q = "" ∨ s.isLoading = true → handleQuestionSubmit now s q = (s, [])) ∧
    (jsTrim q ≠ "" → s.isLoading = false → socketIsOpen s = false →
      handleQuestionSubmit now s q =
        ({ s with messages := s.messages ++ [userMsg now q],
                  isLoading := false, isInChatView := true,
                  currentQuestion := "", isCompleted := false },
         [Effect.toastError (some "WebSocket connection is not open. Please try again.")])) := by
  constructor
  · intro hd
    rcases hd with hq | hl
    · simp [handleQuestionSubmit, hq]
    · simp [handleQuestionSubmit, hl]
  · intro hq hl hs
    simp [handleQuestionSubmit, hq, hl, hs]

/-- Witness for C10: a whitespace-only question is a no-op, and a real
question on the initial (socketless) state appends the user message, clears
loading, and only toasts an error. -/
theorem C10_witness :
    handleQuestionSubmit 4 initialHomeState "  " = (initialHomeState, []) ∧
    handleQuestionSubmit 4 initialHomeState "hi" =
      ({ initialHomeState with
          messages := [userMsg 4 "hi"], isLoading := false,
          isInChatView := true, currentQuestion := "", isCompleted := false },
       [Effect.toastError (some "WebSocket connection is not open. Please try again.")]) := by
  constructor
  · exact (C10_submit 4 initialHomeState "  ").1 (Or.inl rfl)
  · have h := (C10_submit 4 initialHomeState "hi").2 (by decide) rfl rfl
    simpa using h

/-! ### Claim C5 — routing idempotence -/

/-- C5: two invocations of the debounced router in immediate succession
(within the 50ms window) with identical arguments coalesce to a single
execution — the final panel state and the emitted terminal chunks are those
of invoking once, so nothing is duplicated or re-appended — and the
underlying routing function is itself idempotent on the state. -/
theorem C5_route_idempotent (s : HomeState) (a : ActionStep) (so : Bool)
    (t t2 : Nat) (h1 : t ≤ t2) (h2 : t2 < t + 50) :
    debouncedRoute s [(t, a, so), (t2, a, so)] = debouncedRoute s [(t2, a, so)] ∧
    (routeFn (routeFn s a so).1 a so).1 = (routeFn s a so).1 := by
  constructor
  · have hng : ¬ (t + 50 ≤ t2) := by omega
    simp [debouncedRoute, debounceRuns, hng]
  · cases ha : a.type with
    | none => simp [routeFn, ha]
    | some ty =>
      simp only [routeFn, ha]
      split_ifs <;> simp_all [routeFn, ha]

/-- A completed shell ActionStep used to exercise the router. -/
def c5Action : ActionStep :=
  { type := some TOOL.BASH,
    data := { isResult := some true, tool_name := some TOOL.BASH,
              tool_input := some { command := some "ls" }, result := some "x" } }

/-- Witness for C5: two calls at 100ms and 120ms coalesce to the single
120ms call, and re-applying the routing function fixes the state. -/
theorem C5_witness :
    (debouncedRoute initialHomeState [(100, c5Action, false), (120, c5Action, false)]
       = debouncedRoute initialHomeState [(120, c5Action, false)]) ∧
    (routeFn (routeFn initialHomeState c5Action false).1 c5Action false).1
       = (routeFn initialHomeState c5Action false).1 :=
  C5_route_idempotent initialHomeState c5Action false 100 120 (by omega) (by omega)

/-! ### Claim C6 — the entry-count invariant -/

/-- Length accounting of a successful `toolResultUpdate`: a merge keeps the
length, an append adds one. -/
theorem toolResultUpdate_len (now : Nat) (c : EventContent) (prev out : List Message)
    (effs : List Effect) (h : toolResultUpdate now c prev = Except.ok (out, effs)) :
    out.length + (if codeMergeCond c prev then 1 else 0) = prev.length + 1 := by
  unfold toolResultUpdate at h
  unfold codeMergeCond
  cases hl : prev.getLast? with
  | none => rw [hl] at h; exact absurd h (by simp)
  | some m =>
    have hne : prev ≠ [] := by
      intro hp
      rw [hp] at hl
      simp at hl
    have hlen : 1 ≤ prev.length := by
      cases prev with
      | nil => exact absurd rfl hne
      | cons x xs => simp
    rw [hl] at h
    dsimp only at h ⊢
    cases ha : m.action with
    | none =>
      rw [ha] at h
      dsimp only at h
      simp only [Except.ok.injEq, Prod.mk.injEq] at h
      rw [← h.1]
      simp
    | some a =>
      rw [ha] at h
      dsimp only at h
      by_cases hty : (a.type == c.tool_name) = true
      · rw [if_pos hty] at h
        simp only [Except.ok.injEq, Prod.mk.injEq] at h
        rw [← h.1]
        simp only [hty, if_pos, List.length_append, List.length_dropLast,
          List.length_singleton]
        omega
      · rw [if_neg hty] at h
        simp only [Except.ok.injEq, Prod.mk.injEq] at h
        rw [← h.1]
        simp [hty]
/-- Per-event length accounting: one step of the dispatcher changes the
message count by one for an append-triggering event and by zero otherwise,
with matched merges cancelling the tool-result append. -/
theorem handleAgentEvent_len (now : Nat) (ev : AgentEventMsg) (s s2 : HomeState)
    (effs : List Effect) (h : handleAgentEvent now ev s = Except.ok (s2, effs)) :
    s2.messages.length + (if isMatchedMerge ev s then 1 else 0)
      = s.messages.length + (if isAppendTriggering ev then 1 else 0) := by
  obtain ⟨ty, c⟩ := ev
  by_cases e1 : ty = "processing"
  · subst e1
    simp [handleAgentEvent] at h
    obtain ⟨h1, -⟩ := h
    subst h1
    simp [isMatchedMerge, isAppendTriggering]
  · by_cases e2 : ty = "workspace_info"
    · subst e2
      simp [handleAgentEvent] at h
      obtain ⟨h1, -⟩ := h
      subst h1
      simp [isMatchedMerge, isAppendTriggering]
    · by_cases e3 : ty = "agent_thinking"
      · subst e3
        simp [handleAgentEvent] at h
        obtain ⟨h1, -⟩ := h
        subst h1
        simp [isMatchedMerge, isAppendTriggering]
      · by_cases e4 : ty = "tool_call"
        · subst e4
          by_cases e5 : c.tool_name = some "sequential_thinking"
          · simp [handleAgentEvent, e5] at h
            generalize hti : c.tool_input = tiv at h
            cases tiv with
            | none => simp at h
            | some ti =>
              dsimp only at h
              simp only [Except.ok.injEq, Prod.mk.injEq] at h
              obtain ⟨h1, -⟩ := h
              subst h1
              simp [isMatchedMerge, isAppendTriggering]
          · simp [handleAgentEvent, e5] at h
            obtain ⟨h1, -⟩ := h
            subst h1
            simp [isMatchedMerge, isAppendTriggering]
        · by_cases e6 : ty = "browser_use"
          · subst e6
            simp [handleAgentEvent] at h
            obtain ⟨h1, -⟩ := h
            subst h1
            simp [isMatchedMerge, isAppendTriggering]
          · by_cases e7 : ty = "tool_result"
            · subst e7
              cases hb : isBrowserSubKind c with
              | true =>
                simp [handleAgentEvent, hb] at h
                obtain ⟨h1, -⟩ := h
                subst h1
                simp [isMatchedMerge, isAppendTriggering, hb]
              | false =>
                by_cases e8 : c.tool_name = some "browser_use"
                · simp [handleAgentEvent, hb, e8] at h
                  obtain ⟨h1, -⟩ := h
                  subst h1
                  simp [isMatchedMerge, isAppendTriggering, hb, e8]
                · by_cases e9 : c.tool_name = some "sequential_thinking"
                  · simp [handleAgentEvent, hb, e8, e9] at h
                    obtain ⟨h1, -⟩ := h
                    subst h1
                    simp [isMatchedMerge, isAppendTriggering, hb, e8, e9]
                  · simp [handleAgentEvent, hb, e8, e9] at h
                    generalize hu : toolResultUpdate now c s.messages = ru at h
                    cases ru with
                    | error e => simp at h
                    | ok p =>
                      obtain ⟨msgs, effs2⟩ := p
                      dsimp only at h
                      simp only [Except.ok.injEq, Prod.mk.injEq] at h
                      obtain ⟨h1, -⟩ := h
                      subst h1
                      have hlen := toolResultUpdate_len now c s.messages msgs effs2 hu
                      cases hcm : codeMergeCond c s.messages with
                      | true =>
                        simp [hcm] at hlen
                        simp [isMatchedMerge, isAppendTriggering, hb, e8, e9, hcm]
                        omega
                      | false =>
                        simp [hcm] at hlen
                        simp [isMatchedMerge, isAppendTriggering, hb, e8, e9, hcm]
                        omega
            · by_cases e10 : ty = "agent_response"
              · subst e10
                simp [handleAgentEvent] at h
                obtain ⟨h1, -⟩ := h
                subst h1
                simp [isMatchedMerge, isAppendTriggering]
              · by_cases e11 : ty = "upload_success"
                · subst e11
                  simp [handleAgentEvent] at h
                  generalize hf : c.files = fv at h
                  cases fv with
                  | none =>
                    dsimp only at h
                    simp only [Except.ok.injEq, Prod.mk.injEq] at h
                    obtain ⟨h1, -⟩ := h
                    subst h1
                    simp [isMatchedMerge, isAppendTriggering]
                  | some fs =>
                    dsimp only at h
                    simp only [Except.ok.injEq, Prod.mk.injEq] at h
                    obtain ⟨h1, -⟩ := h
                    subst h1
                    simp [isMatchedMerge, isAppendTriggering]
                · by_cases e12 : ty = "error"
                  · subst e12
                    simp [handleAgentEvent] at h
                    obtain ⟨h1, -⟩ := h
                    subst h1
                    simp [isMatchedMerge, isAppendTriggering]
                  · simp [handleAgentEvent, e1, e2, e3, e4, e6, e7, e10, e11, e12] at h
                    obtain ⟨h1, -⟩ := h
                    subst h1
                    simp [isMatchedMerge, isAppendTriggering, e3, e4, e6, e7, e10]

/-- C6: over any successfully processed sequence of well-formed inbound
events, the final entry count equals the initial count plus the number of
append-triggering events minus the number of merge-triggering tool results
that found a match (stated additively to stay in ℕ). -/
theorem C6_entry_count (now : Nat) (evs : List AgentEventMsg) (s s2 : HomeState)
    (h : processEvents now s evs = Except.ok s2) :
    s2.messages.length + matchedMergeCount now s evs
      = s.messages.length + countAppendTriggering evs := by
  induction evs generalizing s with
  | nil =>
    simp only [processEvents, Except.ok.injEq] at h
    subst h
    simp [matchedMergeCount, countAppendTriggering]
  | cons ev rest ih =>
    simp only [processEvents] at h
    cases hh : handleAgentEvent now ev s with
    | error e =>
      rw [hh] at h
      exact absurd h (by simp)
    | ok p =>
      obtain ⟨s1, effs⟩ := p
      rw [hh] at h
      dsimp only at h
      have hstep := handleAgentEvent_len now ev s s1 effs hh
      have hrest := ih s1 h
      simp only [matchedMergeCount, countAppendTriggering, hh]
      cases hb1 : isMatchedMerge ev s <;> cases hb2 : isAppendTriggering ev <;>
        simp [hb1, hb2] at hstep ⊢ <;> omega

/-- The shell tool-call event of the C6 run. -/
def c6CallEvent : AgentEventMsg :=
  { type := "tool_call",
    content := { tool_name := some TOOL.BASH,
                 tool_input := some { command := some "ls" } } }

/-- The matching shell tool-result event of the C6 run. -/
def c6ResultEvent : AgentEventMsg :=
  { type := "tool_result",
    content := { tool_name := some TOOL.BASH, result := some "a\nb" } }

/-- A two-event run: a shell tool call followed by its result. -/
def c6Evs : List AgentEventMsg := [c6CallEvent, c6ResultEvent]

/-- The completed shell step after the merge of the C6 run. -/
def c6MergedAction : ActionStep :=
  { type := some TOOL.BASH,
    data := { isResult := some true, tool_name := some TOOL.BASH,
              tool_input := some { command := some "ls" }, result := some "a\nb" } }

/-- The state after processing `c6Evs` from the initial state. -/
def c6Final : HomeState :=
  { initialHomeState with
      messages := [{ id := toString (1 : Nat), role := "assistant", timestamp := 1,
                     action := some c6MergedAction }] }

/-- Witness for C6: the call-then-result run ends with one entry:
1 entry + 1 matched merge = 0 initial entries + 2 append-triggering events. -/
theorem C6_witness :
    c6Final.messages.length + matchedMergeCount 1 initialHomeState c6Evs
      = initialHomeState.messages.length + countAppendTriggering c6Evs :=
  C6_entry_count 1 c6Evs initialHomeState c6Final (by rfl)

end IIAgent
